import Mathlib

/-!
Shallow embedding of the banana-ripeness frontend workflow
(`src/src/app/page.js`, the `Page` component).

The page keeps its whole workflow state in React `useState` hooks
(lines 35-43) plus two refs (`videoRef`, `streamRef`).  We embed that
state as one record, `PageState`, extended with explicit resource
bookkeeping that the browser performs implicitly:

* object URLs: `URL.createObjectURL` allocates a fresh handle
  (tracked in `createdURLs`), `URL.revokeObjectURL` would move it to
  `revokedURLs` (the source never calls it);
* media streams: `getUserMedia` yields a fresh stream id, appended
  to `liveStreams` while its tracks run; `stopCamera` (line 71)
  stops the tracks of the stream held in `streamRef`.

Each event handler of the page becomes a function on `PageState`.
Handlers are only invocable through the rendered UI, so every
function first checks the visibility/enabled condition of the button
that triggers it (for example `capturePhoto` is only reachable from
the Capture button rendered when `mode === "camera"`, lines 203-222,
and `analyze` only through the Analyze button with
`disabled={!canAnalyze}`, lines 292-298).  Awaited fallible browser
calls (`getUserMedia`, `video.play`, `canvas.toBlob`, `fetch`)
become explicit outcome parameters; each handler is modelled as an
atomic run-to-completion step, so a state is observed only between
handler invocations.
-/

namespace BananaFrontend

/-- Workflow mode, line 35: `useState("idle")` with the comment
`idle | camera | preview | analyzing | result`. -/
inductive Mode
  | idle
  | camera
  | preview
  | analyzing
  | result
deriving DecidableEq, Repr

/-- An image payload.  `Blob.file id` is a file picked from the
gallery (opaque); `Blob.jpeg w h q` is the blob produced by
`canvas.toBlob(resolve, "image/jpeg", 0.92)` at canvas size `w × h`
(lines 91-98). -/
inductive Blob
  | file (id : Nat)
  | jpeg (width height : Nat) (quality : ℚ)
deriving DecidableEq, Repr

/-- The optional `warnings` object of the service response
(`too_dark`, `too_blurry`, lines 315-321). -/
structure Warnings where
  too_dark : Bool
  too_blurry : Bool
deriving DecidableEq, Repr

/-- A parsed JSON body returned by the analysis service
(fields read by the page: `is_banana`, `ripeness`, `confidence`,
`banana_confidence`, `warnings`, `error`).  Optional fields are
`Option`; an absent `is_banana` behaves as `false` under the JS
truthiness test `!result.is_banana`, so it is embedded as `Bool`. -/
structure AnalysisData where
  is_banana : Bool
  ripeness : Option String
  confidence : Option ℚ
  banana_confidence : Option ℚ
  warnings : Option Warnings
  error : Option String
deriving DecidableEq, Repr

/-- The aggregate state of the `Page` component: the `useState`
hooks of lines 35-43, `streamRef` (line 33), and explicit resource
bookkeeping (fresh-id counters, live streams, created/revoked object
URLs). -/
structure PageState where
  mode : Mode
  imageURL : Option Nat
  imageBlob : Option Blob
  stepIndex : Int
  error : Option String
  result : Option AnalysisData
  busy : Bool
  streamRef : Option Nat
  liveStreams : List Nat
  nextStream : Nat
  nextURL : Nat
  createdURLs : List Nat
  revokedURLs : List Nat
deriving DecidableEq, Repr

/-- The initial render: all hooks at their `useState` initial values
(lines 35-43), no stream, no resources allocated. -/
def initState : PageState :=
  { mode := Mode.idle
    imageURL := none
    imageBlob := none
    stepIndex := -1
    error := none
    result := none
    busy := false
    streamRef := none
    liveStreams := []
    nextStream := 0
    nextURL := 0
    createdURLs := []
    revokedURLs := [] }

/-- Line 45: `const canAnalyze = useMemo(() => !!imageBlob && !busy, ...)`. -/
def canAnalyze (s : PageState) : Bool :=
  s.imageBlob.isSome && !s.busy

/-- Lines 71-77, `stopCamera`: if `streamRef.current` holds a
stream, stop its tracks and null the ref; otherwise do nothing. -/
def stopCamera (s : PageState) : PageState :=
  match s.streamRef with
  | some a => { s with liveStreams := s.liveStreams.erase a, streamRef := none }
  | none => s

/-- Outcome of the awaited calls inside `openCamera` (lines 52-64):
`gumFail` = `getUserMedia` rejects (no stream stored); `playFail` =
`getUserMedia` resolves, `streamRef.current = stream` runs, then
`video.play()` rejects; `success` = both resolve. -/
inductive OpenOutcome
  | gumFail
  | playFail
  | success
deriving DecidableEq, Repr

/-- Line 67: the message set when the `openCamera` try-block throws. -/
def cameraErrorMsg : String :=
  "Camera access failed. Please allow camera permission or use Gallery upload."

/-- Lines 47-69, `openCamera`, reachable through the `Use Camera`
button rendered only when `mode !== "camera"` (lines 203, 225).
Clears error/result/stepIndex, sets mode to camera, then awaits
`getUserMedia`; on success stores the fresh stream in `streamRef`
(without stopping any stream already there) and plays it; if either
await rejects, the catch sets mode idle and the camera error.  Note
that on `playFail` the fresh stream has already been stored. -/
def openCamera (s : PageState) (out : OpenOutcome) : PageState :=
  if s.mode = Mode.camera then s
  else
    let s1 := { s with error := none, result := none, stepIndex := -1, mode := Mode.camera }
    match out with
    | OpenOutcome.gumFail =>
        { s1 with mode := Mode.idle, error := some cameraErrorMsg }
    | OpenOutcome.playFail =>
        { s1 with
            nextStream := s1.nextStream + 1
            liveStreams := s1.liveStreams ++ [s1.nextStream]
            streamRef := some s1.nextStream
            mode := Mode.idle
            error := some cameraErrorMsg }
    | OpenOutcome.success =>
        { s1 with
            nextStream := s1.nextStream + 1
            liveStreams := s1.liveStreams ++ [s1.nextStream]
            streamRef := some s1.nextStream }

/-- Lines 79-82, `closeCamera`: the `Back` button, rendered only in
camera mode (lines 213-216); stops the camera and returns to idle. -/
def closeCamera (s : PageState) : PageState :=
  if s.mode = Mode.camera then { stopCamera s with mode := Mode.idle }
  else s

/-- Line 101: the message set when `canvas.toBlob` yields null. -/
def captureErrorMsg : String :=
  "Could not capture image. Please try again."

/-- Lines 84-111, `capturePhoto`: the `Capture` button, rendered
only in camera mode (lines 218-220; the video element is mounted in
that mode, so `videoRef.current` is non-null).  Clears error and
result, sizes the canvas to `videoWidth || 1280` by
`videoHeight || 720` (`vw`/`vh` are 0 when unavailable, the falsy
case of `||`), encodes the frame as JPEG at quality 0.92.  If the
blob is null, only the capture error is set (the session is NOT
stopped, mode stays camera).  On success the camera is stopped, a
fresh object URL is created, and the artifact is stored with mode
preview.  The superseded `imageURL` is not revoked. -/
def capturePhoto (s : PageState) (vw vh : Nat) (blobOk : Bool) : PageState :=
  if s.mode = Mode.camera then
    let s1 := { s with error := none, result := none }
    let w := if vw = 0 then 1280 else vw
    let h := if vh = 0 then 720 else vh
    if blobOk then
      let s2 := stopCamera s1
      { s2 with
          nextURL := s2.nextURL + 1
          createdURLs := s2.createdURLs ++ [s2.nextURL]
          imageURL := some s2.nextURL
          imageBlob := some (Blob.jpeg w h (92 / 100))
          mode := Mode.preview }
    else { s1 with error := some captureErrorMsg }
  else s

/-- Lines 113-118, `pickFromGallery`: clears error/result/stepIndex
and clicks the hidden file input. -/
def pickFromGallery (s : PageState) : PageState :=
  { s with error := none, result := none, stepIndex := -1 }

/-- Lines 120-128, `onFileSelected`: if no file was chosen, return;
otherwise create a fresh object URL (the superseded one is not
revoked), store the file as the artifact, and move to preview. -/
def onFileSelected (s : PageState) (file : Option Nat) : PageState :=
  match file with
  | none => s
  | some f =>
      { s with
          nextURL := s.nextURL + 1
          createdURLs := s.createdURLs ++ [s.nextURL]
          imageURL := some s.nextURL
          imageBlob := some (Blob.file f)
          mode := Mode.preview }

/-- The user-level select-file operation: the `Upload from Gallery`
button (rendered only when `mode !== "camera"`, lines 229-231) runs
`pickFromGallery`, then the file dialog either yields a file to
`onFileSelected` (lines 233-239) or is cancelled (`file = none`). -/
def selectFile (s : PageState) (file : Option Nat) : PageState :=
  if s.mode = Mode.camera then s
  else onFileSelected (pickFromGallery s) file

/-- Lines 130-139, `resetAll`: the always-rendered `Reset` button
(lines 288-290).  Stops the camera and clears every hook.  The held
`imageURL` is nulled but never revoked. -/
def resetAll (s : PageState) : PageState :=
  let s1 := stopCamera s
  { s1 with
      mode := Mode.idle
      imageURL := none
      imageBlob := none
      result := none
      error := none
      stepIndex := -1
      busy := false }

/-- JS string truthiness for `m || d`: the empty string is falsy. -/
def strOr (m d : String) : String :=
  if m = "" then d else m

/-- JS optional chaining plus `||`: `o?.field || d` with `o : Option
String`; absent or empty yields the default. -/
def jsOr (o : Option String) (d : String) : String :=
  match o with
  | none => d
  | some m => strOr m d

/-- Outcome of the awaited `fetch` in `analyze` (lines 157-162):
either the transport rejects with an exception message, or a
response arrives with status flag `res.ok` and a parsed JSON body
(the service contract, spec section 6, is that bodies are JSON). -/
inductive FetchOutcome
  | transportFail (msg : String)
  | response (ok : Bool) (data : AnalysisData)
deriving DecidableEq, Repr

/-- Line 164: the fallback message when a failure response carries
no usable `error` field. -/
def failedAnalyzeMsg : String :=
  "Failed to analyze image."

/-- Line 172: the fallback when the caught exception has no message. -/
def wentWrongMsg : String :=
  "Something went wrong."

/-- Lines 141-176, `analyze`, together with the trace of values
passed to `setStepIndex` during the invocation.  Guarded by the
Analyze button's `disabled={!canAnalyze}` (line 295) and by the
internal `if (!imageBlob) return` (line 142).  When enabled: sets
busy, clears error/result, mode analyzing, `setStepIndex(0)`, then
`setStepIndex(1)`, then awaits the POST.
* transport failure: catch sets mode preview and
  `e.message || "Something went wrong."`; finally clears busy.
  `stepIndex` is NOT reset.
* response with `!res.ok`: `throw new Error(data?.error || "Failed
  to analyze image.")`; the catch stores that message.
* ok response: `setStepIndex(2)`, stores the body as the result,
  mode result; finally clears busy. -/
def analyzeT (s : PageState) (out : FetchOutcome) : PageState × List Int :=
  if canAnalyze s then
    if s.imageBlob.isNone then (s, [])
    else
      let s1 := { s with
                    busy := true, error := none, result := none
                    mode := Mode.analyzing, stepIndex := 0 }
      let s2 := { s1 with stepIndex := 1 }
      match out with
      | FetchOutcome.transportFail msg =>
          ({ s2 with mode := Mode.preview
                     error := some (strOr msg wentWrongMsg)
                     busy := false }, [0, 1])
      | FetchOutcome.response ok data =>
          if ok then
            ({ s2 with stepIndex := 2, result := some data
                       mode := Mode.result, busy := false }, [0, 1, 2])
          else
            ({ s2 with mode := Mode.preview
                       error := some (strOr (jsOr data.error failedAnalyzeMsg) wentWrongMsg)
                       busy := false }, [0, 1])
  else (s, [])

/-- The state after an `analyze` invocation (first component of
`analyzeT`). -/
def analyze (s : PageState) (out : FetchOutcome) : PageState :=
  (analyzeT s out).1

/-- Lines 342-345: the ripeness-confidence bar width,
`Math.min(100, Math.max(0, (result.confidence || 0) * 100))`
(`confidence` absent, null or NaN is falsy, hence 0). -/
def barWidth (r : AnalysisData) : ℚ :=
  min 100 (max 0 (r.confidence.getD 0 * 100))

/-- Line 315 / 361: `result?.warnings?.too_dark` as a boolean. -/
def warnTooDark (r : AnalysisData) : Bool :=
  (r.warnings.map Warnings.too_dark).getD false

/-- Line 319 / 365: `result?.warnings?.too_blurry` as a boolean. -/
def warnTooBlurry (r : AnalysisData) : Bool :=
  (r.warnings.map Warnings.too_blurry).getD false

/-- What the result section of the page renders: the no-banana
warning card (lines 303-323) or the ripeness result card
(lines 324-369). -/
inductive ResultView
  | noBanana (bananaConfidence : Option ℚ) (tooDark tooBlurry : Bool)
  | banana (ripeness : Option String) (confidence : Option ℚ) (width : ℚ)
      (bananaConfidence : Option ℚ) (tooDark tooBlurry : Bool)
deriving DecidableEq, Repr

/-- Lines 301-372: the result section renders only when
`mode === "result" && result`; it branches on `!result.is_banana`. -/
def resultView (s : PageState) : Option ResultView :=
  match s.mode, s.result with
  | Mode.result, some r =>
      if r.is_banana then
        some (ResultView.banana r.ripeness r.confidence (barWidth r)
          r.banana_confidence (warnTooDark r) (warnTooBlurry r))
      else
        some (ResultView.noBanana r.banana_confidence (warnTooDark r) (warnTooBlurry r))
  | _, _ => none

/-- Object URLs that have been created and not revoked (the page
never calls `URL.revokeObjectURL`, so none ever is). -/
def liveURLs (s : PageState) : List Nat :=
  s.createdURLs.filter (fun u => !s.revokedURLs.contains u)

/-- A user-level operation on the page, with the outcomes of its
awaited browser calls as parameters. -/
inductive Op
  | openCam (out : OpenOutcome)
  | closeCam
  | capture (vw vh : Nat) (blobOk : Bool)
  | pickFile (file : Option Nat)
  | doAnalyze (out : FetchOutcome)
  | reset
deriving DecidableEq, Repr

/-- One user-level step of the page. -/
def step (s : PageState) : Op → PageState
  | Op.openCam out => openCamera s out
  | Op.closeCam => closeCamera s
  | Op.capture vw vh blobOk => capturePhoto s vw vh blobOk
  | Op.pickFile file => selectFile s file
  | Op.doAnalyze out => analyze s out
  | Op.reset => resetAll s

/-- States reachable from the initial render by any sequence of
user-level operations with any outcomes. -/
inductive Reachable : PageState → Prop
  | init : Reachable initState
  | next {s : PageState} (h : Reachable s) (op : Op) : Reachable (step s op)

/-! ### Shared sample inputs -/

/-- A minimal successful service body (`is_banana = true`, every
optional field absent). -/
def plainData : AnalysisData :=
  { is_banana := true, ripeness := none, confidence := none
    banana_confidence := none, warnings := none, error := none }

/-- A preview state: the initial render after one gallery
selection. -/
def previewState : PageState :=
  step initState (Op.pickFile (some 0))

/-- A camera state: camera mode with stream 5 live and referenced. -/
def cameraState : PageState :=
  { initState with
      mode := Mode.camera
      streamRef := some 5
      liveStreams := [5]
      nextStream := 6 }

/-- A failure body carrying a service error message. -/
def badImageData : AnalysisData :=
  { plainData with error := some "bad image" }

/-- The scenario-B body: not a banana, confidence 0.3, too dark. -/
def notBananaData : AnalysisData :=
  { is_banana := false
    ripeness := none
    confidence := none
    banana_confidence := some (3 / 10)
    warnings := some { too_dark := true, too_blurry := false }
    error := none }

/-- The state after a gallery selection followed by an analyze whose
transport failed. -/
def afterFailedAnalyze : PageState :=
  step previewState (Op.doAnalyze (FetchOutcome.transportFail "network down"))

/-- The state after gallery selection, opening the camera on top of
the preview, and analyzing successfully from camera mode (the
Analyze button stays enabled there): result mode with the camera
stream still live. -/
def resultWithCamera : PageState :=
  step (step previewState (Op.openCam OpenOutcome.success))
    (Op.doAnalyze (FetchOutcome.response true plainData))

/-- Opening the camera again from `resultWithCamera`: a second
stream is acquired while the first is still live. -/
def twoLiveStreams : PageState :=
  step resultWithCamera (Op.openCam OpenOutcome.success)

/-- When `canAnalyze` holds, the handler's internal
`if (!imageBlob) return` guard does not fire. -/
lemma imageBlob_isNone_false (s : PageState) (h : canAnalyze s = true) :
    s.imageBlob.isNone = false := by
  have h' := h
  simp only [canAnalyze, Bool.and_eq_true] at h'
  cases hib : s.imageBlob with
  | none => rw [hib] at h'; simp at h'
  | some v => simp [hib]

/-! ### Claim theorems -/

/-- C1: for every workflow state, invoking analyze with no image
artifact held, or with `busy = true`, leaves the whole state
unchanged (the Analyze button is disabled by `!canAnalyze` and the
handler itself returns early on a missing blob). -/
theorem analyze_disabled_noop (s : PageState) (out : FetchOutcome)
    (h : s.imageBlob = none ∨ s.busy = true) :
    analyze s out = s := by
  have hc : canAnalyze s = false := by
    rcases h with h | h <;> simp [canAnalyze, h]
  simp [analyze, analyzeT, hc]

/-- C1 witness: analyze on the initial state (no artifact) is a
no-op. -/
theorem analyze_disabled_noop_witness :
    analyze initState (FetchOutcome.transportFail "x") = initState :=
  analyze_disabled_noop initState (FetchOutcome.transportFail "x") (Or.inl rfl)

/-- C7: reset from any state yields idle mode, no artifact, no
result, no error, `busy = false`, stage cleared, and no camera
session held. -/
theorem resetAll_spec (s : PageState) :
    (resetAll s).mode = Mode.idle ∧
    (resetAll s).imageBlob = none ∧
    (resetAll s).imageURL = none ∧
    (resetAll s).result = none ∧
    (resetAll s).error = none ∧
    (resetAll s).busy = false ∧
    (resetAll s).stepIndex = -1 ∧
    (resetAll s).streamRef = none := by
  cases h : s.streamRef <;> simp [resetAll, stopCamera, h]

/-- C10: the rendered confidence-bar width is always clamped to
[0, 100], whatever the `confidence` field holds (including absent,
in which case `|| 0` applies). -/
theorem barWidth_clamped (r : AnalysisData) :
    0 ≤ barWidth r ∧ barWidth r ≤ 100 := by
  unfold barWidth
  exact ⟨le_min (by norm_num) (le_max_left _ _), min_le_left _ _⟩

/-- C5: when analyze is enabled, a failure-status response moves the
workflow to preview with the service-provided error message when one
is present (non-empty), else `"Failed to analyze image."`; a
transport failure moves to preview with the transport's own message;
in both cases the result is cleared and busy ends false (the whole
handler body is wrapped in try/catch/finally, so no rejection
escapes). -/
theorem analyze_error_paths (s : PageState) (data : AnalysisData) (msg m : String)
    (h : canAnalyze s = true) :
    ((analyze s (FetchOutcome.response false data)).mode = Mode.preview ∧
     (analyze s (FetchOutcome.response false data)).result = none ∧
     (analyze s (FetchOutcome.response false data)).busy = false ∧
     (data.error = some m → m ≠ "" →
       (analyze s (FetchOutcome.response false data)).error = some m) ∧
     (data.error = none →
       (analyze s (FetchOutcome.response false data)).error = some failedAnalyzeMsg)) ∧
    ((analyze s (FetchOutcome.transportFail msg)).mode = Mode.preview ∧
     (analyze s (FetchOutcome.transportFail msg)).result = none ∧
     (analyze s (FetchOutcome.transportFail msg)).busy = false ∧
     (msg ≠ "" → (analyze s (FetchOutcome.transportFail msg)).error = some msg)) := by
  have hblob := imageBlob_isNone_false s h
  refine ⟨⟨?_, ?_, ?_, ?_, ?_⟩, ⟨?_, ?_, ?_, ?_⟩⟩ <;>
    simp [analyze, analyzeT, h, hblob, jsOr, strOr, failedAnalyzeMsg, wentWrongMsg]
  · intro he hm
    simp [he, strOr, hm]
  · intro he
    simp [he]
  · intro hm
    simp [strOr, hm]

/-- C5 witness: from a concrete preview state, a failure response
carrying `error = "bad image"` and a transport failure `"network
down"` both land in preview with the stated messages. -/
theorem analyze_error_paths_witness :
    (analyze previewState (FetchOutcome.response false badImageData)).error =
      some "bad image" ∧
    (analyze previewState (FetchOutcome.transportFail "network down")).error =
      some "network down" :=
  ⟨((analyze_error_paths previewState badImageData
      "network down" "bad image" (by decide)).1.2.2.2.1 rfl (by decide)),
   ((analyze_error_paths previewState badImageData
      "network down" "bad image" (by decide)).2.2.2.2 (by decide))⟩

/-- C6: in camera mode with the session stream live, a successful
capture stores a JPEG blob at the video's resolution (1280×720 when
the video reports 0) with quality 0.92, moves to preview, and stops
the session; a failed capture (null blob) sets the capture error,
stays in camera mode, and leaves the session running. -/
theorem capturePhoto_spec (s : PageState) (vw vh a : Nat)
    (hm : s.mode = Mode.camera) (hr : s.streamRef = some a)
    (hl : s.liveStreams = [a]) :
    ((capturePhoto s vw vh true).mode = Mode.preview ∧
     (capturePhoto s vw vh true).imageBlob =
       some (Blob.jpeg (if vw = 0 then 1280 else vw)
         (if vh = 0 then 720 else vh) (92 / 100)) ∧
     (capturePhoto s vw vh true).streamRef = none ∧
     (capturePhoto s vw vh true).liveStreams = [] ∧
     (capturePhoto s vw vh true).error = none ∧
     (capturePhoto s vw vh true).result = none) ∧
    ((capturePhoto s vw vh false).mode = Mode.camera ∧
     (capturePhoto s vw vh false).streamRef = some a ∧
     (capturePhoto s vw vh false).liveStreams = [a] ∧
     (capturePhoto s vw vh false).error = some captureErrorMsg ∧
     (capturePhoto s vw vh false).imageBlob = s.imageBlob) := by
  refine ⟨⟨?_, ?_, ?_, ?_, ?_, ?_⟩, ⟨?_, ?_, ?_, ?_, ?_⟩⟩ <;>
    simp [capturePhoto, hm, stopCamera, hr, hl]

/-- C6 witness: capture from a concrete camera state with stream 5,
with the video reporting 640×480, and the failure case from the same
state. -/
theorem capturePhoto_spec_witness :
    (capturePhoto cameraState 640 480 true).mode = Mode.preview ∧
    (capturePhoto cameraState 640 480 false).mode = Mode.camera :=
  ⟨(capturePhoto_spec cameraState 640 480 5 rfl rfl rfl).1.1,
   (capturePhoto_spec cameraState 640 480 5 rfl rfl rfl).2.1⟩

/-- C8: a successful (2xx) response whose body says `is_banana =
false` routes to the result state: the body is stored as the result,
the error stays unset, and the rendered view is the no-banana card
carrying the banana confidence and the too-dark/too-blurry warning
flags. -/
theorem analyze_not_banana_result (s : PageState) (data : AnalysisData)
    (h : canAnalyze s = true) (hb : data.is_banana = false) :
    (analyze s (FetchOutcome.response true data)).mode = Mode.result ∧
    (analyze s (FetchOutcome.response true data)).result = some data ∧
    (analyze s (FetchOutcome.response true data)).error = none ∧
    resultView (analyze s (FetchOutcome.response true data)) =
      some (ResultView.noBanana data.banana_confidence
        (warnTooDark data) (warnTooBlurry data)) := by
  have hblob := imageBlob_isNone_false s h
  refine ⟨?_, ?_, ?_, ?_⟩ <;>
    simp [analyze, analyzeT, h, hblob, resultView, hb]

/-- C8 witness: scenario B — after a gallery selection, the service
answers `{is_banana: false, banana_confidence: 0.3, warnings:
{too_dark: true}}`; the view is the no-banana card with the too-dark
flag raised. -/
theorem analyze_not_banana_result_witness :
    resultView (analyze previewState (FetchOutcome.response true notBananaData)) =
      some (ResultView.noBanana (some (3 / 10)) true false) :=
  (analyze_not_banana_result previewState notBananaData (by decide) rfl).2.2.2

/-- C2 counterexample: from a concrete preview state, a failed
analyze sets the stage index to 0 then 1 and then leaves it at 1 —
it does NOT end cleared (-1): the catch block of `analyze` never
calls `setStepIndex(-1)`. -/
theorem analyze_failure_keeps_stage :
    (analyzeT previewState (FetchOutcome.transportFail "network down")).2 = [0, 1] ∧
    (analyze previewState (FetchOutcome.transportFail "network down")).stepIndex = 1 ∧
    (analyze previewState (FetchOutcome.transportFail "network down")).mode = Mode.preview ∧
    ¬(analyze previewState (FetchOutcome.transportFail "network down")).stepIndex = -1 := by
  refine ⟨by decide, by decide, by decide, by decide⟩

/-- C2 amended: during a successful analyze the stage index takes
exactly the values 0, 1, 2 in that order; when the invocation fails
(transport failure or failure status) the index is set to 0 then 1
and is left at 1 — the value set just before the request — rather
than being cleared. -/
theorem analyze_stage_trace (s : PageState) (msg : String) (data : AnalysisData)
    (h : canAnalyze s = true) :
    (analyzeT s (FetchOutcome.response true data)).2 = [0, 1, 2] ∧
    (analyze s (FetchOutcome.response true data)).stepIndex = 2 ∧
    (analyzeT s (FetchOutcome.transportFail msg)).2 = [0, 1] ∧
    (analyze s (FetchOutcome.transportFail msg)).stepIndex = 1 ∧
    (analyzeT s (FetchOutcome.response false data)).2 = [0, 1] ∧
    (analyze s (FetchOutcome.response false data)).stepIndex = 1 := by
  have hblob := imageBlob_isNone_false s h
  refine ⟨?_, ?_, ?_, ?_, ?_, ?_⟩ <;>
    simp [analyze, analyzeT, h, hblob]

/-- C2 amended, witness: the stage trace of a successful analyze
from a concrete preview state is `[0, 1, 2]`. -/
theorem analyze_stage_trace_witness :
    (analyzeT previewState (FetchOutcome.response true plainData)).2 = [0, 1, 2] ∧
    (analyzeT previewState (FetchOutcome.transportFail "x")).2 = [0, 1] :=
  ⟨(analyze_stage_trace previewState "x" plainData (by decide)).1,
   (analyze_stage_trace previewState "x" plainData (by decide)).2.2.1⟩

/-- The part of claim C3's invariant that actually holds on the
code, plus the guarantee that the held stream reference always
points at a live stream. -/
def WorkflowInv (s : PageState) : Prop :=
  (s.result.isSome = true → s.mode = Mode.result) ∧
  (0 ≤ s.stepIndex →
    (s.mode = Mode.result ∧ s.stepIndex = 2) ∨
    (s.mode = Mode.preview ∧ s.stepIndex = 1)) ∧
  (∀ a, s.streamRef = some a → a ∈ s.liveStreams)

lemma workflowInv_openCamera (s : PageState) (out : OpenOutcome)
    (h : WorkflowInv s) : WorkflowInv (openCamera s out) := by
  unfold openCamera
  split
  · exact h
  · cases out with
    | gumFail =>
        refine ⟨by simp, by simp, ?_⟩
        intro a ha
        simp only at ha ⊢
        exact h.2.2 a ha
    | playFail =>
        refine ⟨by simp, by simp, ?_⟩
        intro a ha
        simp only [Option.some_inj] at ha
        subst ha
        simp
    | success =>
        refine ⟨by simp, by simp, ?_⟩
        intro a ha
        simp only [Option.some_inj] at ha
        subst ha
        simp

lemma workflowInv_closeCamera (s : PageState) (h : WorkflowInv s) :
    WorkflowInv (closeCamera s) := by
  unfold closeCamera
  split
  · next hm =>
      have hres : s.result.isSome = false := by
        cases hr : s.result.isSome with
        | false => rfl
        | true => exact absurd (h.1 hr) (by rw [hm]; decide)
      have hstep : ¬(0 ≤ s.stepIndex) := by
        intro h0
        rcases h.2.1 h0 with ⟨hm2, _⟩ | ⟨hm2, _⟩ <;> rw [hm] at hm2 <;> exact absurd hm2 (by decide)
      cases hsr : s.streamRef with
      | none =>
          refine ⟨by simp [stopCamera, hsr, hres], ?_, by simp [stopCamera, hsr]⟩
          intro h0
          simp [stopCamera, hsr] at h0
          exact absurd h0 hstep
      | some a =>
          refine ⟨by simp [stopCamera, hsr, hres], ?_, by simp [stopCamera, hsr]⟩
          intro h0
          simp [stopCamera, hsr] at h0
          exact absurd h0 hstep
  · exact h

lemma workflowInv_capturePhoto (s : PageState) (vw vh : Nat) (blobOk : Bool)
    (h : WorkflowInv s) : WorkflowInv (capturePhoto s vw vh blobOk) := by
  unfold capturePhoto
  split
  · next hm =>
      have hstep : ¬(0 ≤ s.stepIndex) := by
        intro h0
        rcases h.2.1 h0 with ⟨hm2, _⟩ | ⟨hm2, _⟩ <;> rw [hm] at hm2 <;> exact absurd hm2 (by decide)
      cases blobOk with
      | true =>
          cases hsr : s.streamRef with
          | none =>
              refine ⟨by simp [stopCamera, hsr], ?_, by simp [stopCamera, hsr]⟩
              intro h0
              simp [stopCamera, hsr] at h0
              exact absurd h0 hstep
          | some a =>
              refine ⟨by simp [stopCamera, hsr], ?_, by simp [stopCamera, hsr]⟩
              intro h0
              simp [stopCamera, hsr] at h0
              exact absurd h0 hstep
      | false =>
          refine ⟨by simp, ?_, ?_⟩
          · intro h0
            simp at h0
            exact absurd h0 hstep
          · intro a ha
            simp only at ha ⊢
            exact h.2.2 a (by simpa using ha)
  · exact h

lemma workflowInv_selectFile (s : PageState) (file : Option Nat)
    (h : WorkflowInv s) : WorkflowInv (selectFile s file) := by
  unfold selectFile onFileSelected pickFromGallery
  split
  · exact h
  · cases file with
    | none =>
        refine ⟨by simp, by simp, ?_⟩
        intro a ha
        simp only at ha ⊢
        exact h.2.2 a ha
    | some f =>
        refine ⟨by simp, by simp, ?_⟩
        intro a ha
        simp only at ha ⊢
        exact h.2.2 a ha

lemma workflowInv_analyze (s : PageState) (out : FetchOutcome)
    (h : WorkflowInv s) : WorkflowInv (analyze s out) := by
  unfold analyze analyzeT
  split
  · next hc =>
      have hblob := imageBlob_isNone_false s hc
      rw [hblob]
      cases out with
      | transportFail msg =>
          refine ⟨by simp, by simp, ?_⟩
          intro a ha
          simp only at ha ⊢
          exact h.2.2 a ha
      | response ok data =>
          cases ok with
          | true =>
              refine ⟨by simp, by simp, ?_⟩
              intro a ha
              simp only at ha ⊢
              exact h.2.2 a ha
          | false =>
              refine ⟨by simp, by simp, ?_⟩
              intro a ha
              simp only at ha ⊢
              exact h.2.2 a ha
  · exact h

lemma workflowInv_resetAll (s : PageState) : WorkflowInv (resetAll s) := by
  cases hsr : s.streamRef with
  | none => exact ⟨by simp [resetAll, stopCamera, hsr], by simp [resetAll, stopCamera, hsr],
      by simp [resetAll, stopCamera, hsr]⟩
  | some a => exact ⟨by simp [resetAll, stopCamera, hsr], by simp [resetAll, stopCamera, hsr],
      by simp [resetAll, stopCamera, hsr]⟩

/-- C3 counterexample: two reachable states violate the claimed
invariant.  After a failed analyze the stage index is still 1 while
the mode is preview (not analyzing/result); and after analyzing from
camera mode (the Analyze button stays enabled there) the camera
stream is still live and referenced while the mode is result. -/
theorem workflow_invariant_violated :
    (Reachable afterFailedAnalyze ∧
     afterFailedAnalyze.mode = Mode.preview ∧
     afterFailedAnalyze.stepIndex = 1 ∧
     0 ≤ afterFailedAnalyze.stepIndex) ∧
    (Reachable resultWithCamera ∧
     resultWithCamera.mode = Mode.result ∧
     resultWithCamera.streamRef = some 0 ∧
     resultWithCamera.liveStreams = [0]) := by
  refine ⟨⟨?_, by decide, by decide, by decide⟩, ⟨?_, by decide, by decide, by decide⟩⟩
  · exact Reachable.next (Reachable.next Reachable.init (Op.pickFile (some 0)))
      (Op.doAnalyze (FetchOutcome.transportFail "network down"))
  · exact Reachable.next (Reachable.next (Reachable.next Reachable.init
      (Op.pickFile (some 0))) (Op.openCam OpenOutcome.success))
      (Op.doAnalyze (FetchOutcome.response true plainData))

/-- C3 amended: in every reachable state, the analysis result is
non-null only while the mode is result; the stage index is defined
(≥ 0) only with value 2 in result mode or value 1 in preview mode
(the residue of a failed analyze); and the held stream reference
always points at a live stream (but may exist outside camera
mode). -/
theorem workflow_invariant_holds (s : PageState) (h : Reachable s) :
    WorkflowInv s := by
  induction h with
  | init =>
      exact ⟨by simp [initState], by simp [initState], by simp [initState]⟩
  | next h op ih =>
      cases op with
      | openCam out => exact workflowInv_openCamera _ out ih
      | closeCam => exact workflowInv_closeCamera _ ih
      | capture vw vh blobOk => exact workflowInv_capturePhoto _ vw vh blobOk ih
      | pickFile file => exact workflowInv_selectFile _ file ih
      | doAnalyze out => exact workflowInv_analyze _ out ih
      | reset => exact workflowInv_resetAll _

/-- C3 amended, witness: the invariant at the initial state. -/
theorem workflow_invariant_holds_witness : WorkflowInv initState :=
  workflow_invariant_holds initState Reachable.init

/-- No operation of the page ever revokes an object URL:
`URL.revokeObjectURL` does not occur in the source. -/
lemma revokedURLs_step (s : PageState) (op : Op) :
    (step s op).revokedURLs = s.revokedURLs := by
  cases op with
  | openCam out =>
      show (openCamera s out).revokedURLs = s.revokedURLs
      unfold openCamera
      split
      · rfl
      · cases out <;> simp
  | closeCam =>
      show (closeCamera s).revokedURLs = s.revokedURLs
      unfold closeCamera
      split
      · cases hsr : s.streamRef <;> simp [stopCamera, hsr]
      · rfl
  | capture vw vh blobOk =>
      show (capturePhoto s vw vh blobOk).revokedURLs = s.revokedURLs
      unfold capturePhoto
      split
      · cases blobOk with
        | true => cases hsr : s.streamRef <;> simp [stopCamera, hsr]
        | false => simp
      · rfl
  | pickFile file =>
      show (selectFile s file).revokedURLs = s.revokedURLs
      unfold selectFile onFileSelected pickFromGallery
      split
      · rfl
      · cases file <;> simp
  | doAnalyze out =>
      show (analyze s out).revokedURLs = s.revokedURLs
      unfold analyze analyzeT
      split
      · cases hib : s.imageBlob.isNone with
        | true => simp
        | false =>
            cases out with
            | transportFail msg => simp
            | response ok data => cases ok <;> simp
      · rfl
  | reset =>
      show (resetAll s).revokedURLs = s.revokedURLs
      cases hsr : s.streamRef <;> simp [resetAll, stopCamera, hsr]

/-- C4 counterexample: two consecutive gallery selections leave two
live preview handles — the handle superseded by the second selection
is never released (`URL.revokeObjectURL` is never called). -/
theorem preview_handles_accumulate :
    Reachable (step previewState (Op.pickFile (some 1))) ∧
    (liveURLs (step previewState (Op.pickFile (some 1)))).length = 2 ∧
    (step previewState (Op.pickFile (some 1))).revokedURLs = [] := by
  refine ⟨Reachable.next (Reachable.next Reachable.init (Op.pickFile (some 0)))
    (Op.pickFile (some 1)), by decide, by decide⟩

/-- C4 amended: preview handles are never explicitly released — in
every reachable state the set of revoked handles is empty and every
created handle is still live; each new gallery selection adds one
more live handle, and reset does not release any. -/
theorem preview_handles_never_revoked (s : PageState) (h : Reachable s) :
    s.revokedURLs = [] ∧
    liveURLs s = s.createdURLs ∧
    (∀ f, s.mode ≠ Mode.camera →
      liveURLs (selectFile s (some f)) = liveURLs s ++ [s.nextURL]) ∧
    liveURLs (resetAll s) = liveURLs s := by
  have hrev : s.revokedURLs = [] := by
    induction h with
    | init => rfl
    | next h op ih => rw [revokedURLs_step _ op, ih]
  refine ⟨hrev, ?_, ?_, ?_⟩
  · simp [liveURLs, hrev]
  · intro f hm
    simp [selectFile, onFileSelected, pickFromGallery, hm, liveURLs, hrev]
  · cases hsr : s.streamRef <;> simp [resetAll, stopCamera, hsr, liveURLs, hrev]

/-- C4 amended, witness: the amended statement at the initial
state. -/
theorem preview_handles_never_revoked_witness :
    initState.revokedURLs = [] ∧ liveURLs initState = initState.createdURLs :=
  ⟨(preview_handles_never_revoked initState Reachable.init).1,
   (preview_handles_never_revoked initState Reachable.init).2.1⟩

/-- C9 counterexample: from a reachable state in which a camera
session exists (`resultWithCamera` references live stream 0), an
open-camera request succeeds without error — it neither reuses
stream 0 nor rejects — and afterwards two live streams exist. -/
theorem openCamera_creates_second_live_stream :
    Reachable twoLiveStreams ∧
    resultWithCamera.streamRef = some 0 ∧
    twoLiveStreams.liveStreams = [0, 1] ∧
    twoLiveStreams.streamRef = some 1 ∧
    twoLiveStreams.error = none := by
  refine ⟨?_, by decide, by decide, by decide, by decide⟩
  exact Reachable.next (Reachable.next (Reachable.next (Reachable.next Reachable.init
    (Op.pickFile (some 0))) (Op.openCam OpenOutcome.success))
    (Op.doAnalyze (FetchOutcome.response true plainData))) (Op.openCam OpenOutcome.success)

/-- C9 amended: an open-camera request never consults the existing
session: on success (from any mode where the button is rendered) it
acquires a fresh stream, appends it to the live streams without
stopping any of them, and repoints the reference — so a previously
referenced live session stays live and unreferenced. -/
theorem openCamera_ignores_existing_session (s : PageState)
    (h : s.mode ≠ Mode.camera) :
    (openCamera s OpenOutcome.success).streamRef = some s.nextStream ∧
    (openCamera s OpenOutcome.success).liveStreams = s.liveStreams ++ [s.nextStream] ∧
    (openCamera s OpenOutcome.success).mode = Mode.camera ∧
    (openCamera s OpenOutcome.success).error = none := by
  refine ⟨?_, ?_, ?_, ?_⟩ <;> simp [openCamera, h]

/-- C9 amended, witness: opening the camera from `resultWithCamera`
keeps stream 0 live while referencing the fresh stream. -/
theorem openCamera_ignores_existing_session_witness :
    (openCamera resultWithCamera OpenOutcome.success).liveStreams =
      resultWithCamera.liveStreams ++ [resultWithCamera.nextStream] :=
  (openCamera_ignores_existing_session resultWithCamera (by decide)).2.1

end BananaFrontend
